import Mathlib

/-!
Verification of the PennyLane excerpt: the pytest configuration file
`tests/conftest.py`, the Qubitization test suite
`tests/templates/test_subroutines/test_qubitization.py`, and the
`pennylane/devices/qubit_mixed/__init__.py` re-export shim.

The Python code is shallowly embedded: fixtures become Lean functions from
their inputs (command-line options, environment, markers, global state) to
their results; `pytest.skip` / exceptions become `Bool` / `Except` results;
module-level structure (statements, decorators) becomes explicit data.
-/

namespace Pennylane

/-! ## A small model of Python values and `eval`

`disable_opmath_if_requested` applies the Python builtin `eval` to the string
supplied on the command line.  We model the fragment of `eval` relevant here:
the boolean literals `True` / `False` and nonnegative integer literals
evaluate to values; any other string (an undefined identifier such as `no`,
or a syntax error) makes `eval` raise, modelled as `none`. -/

inductive PyValue where
  | bool (b : Bool)
  | int (n : Nat)
deriving DecidableEq, Repr

/-- Python truthiness: `False` and `0` are falsy, everything else is truthy. -/
def PyValue.truthy : PyValue → Bool
  | .bool b => b
  | .int n => n != 0

/-- Value of a string of decimal digits. -/
def digitsToNat (cs : List Char) : Nat :=
  cs.foldl (fun acc c => 10 * acc + (c.toNat - 48)) 0

/-- Model of the Python builtin `eval` on the strings this code can receive:
`"True"`/`"False"` are the boolean literals, a digit string is an integer
literal, and any other string raises (`NameError` for an undefined
identifier such as `"no"`, `SyntaxError` for a non-expression). -/
def pyEval (s : String) : Option PyValue :=
  if s = "True" then some (.bool true)
  else if s = "False" then some (.bool false)
  else if !s.data.isEmpty && s.data.all Char.isDigit then
    some (.int (digitsToNat s.data))
  else none

/-! ## The `--disable-opmath` option and `disable_opmath_if_requested`

`pytest_addoption` registers `--disable-opmath` with `action="store"` and
`default="False"`.  The session-scoped autouse fixture reads the option,
applies `eval`, and when the result is truthy issues a `UserWarning` and
calls `qml.operation.disable_new_opmath(warn=False)`. -/

/-- Default value of `--disable-opmath` registered by `pytest_addoption`. -/
def disableOpmathDefault : String := "False"

/-- `request.config.getoption("--disable-opmath")`: the command-line value
when supplied, otherwise the registered default. -/
def getDisableOpmathOption (cmdline : Option String) : String :=
  cmdline.getD disableOpmathDefault

/-- The session state the fixture can observe and mutate: whether the new
operator arithmetic system is active, and the warnings issued so far. -/
structure OpmathState where
  newOpmathActive : Bool
  warningsIssued : List String
deriving DecidableEq, Repr

/-- The `UserWarning` text issued when opmath is disabled. -/
def disableOpmathWarning : String :=
  "Disabling the new Operator arithmetic system for legacy support. " ++
  "If you need help troubleshooting your code, please visit " ++
  "https://docs.pennylane.ai/en/stable/news/new_opmath.html"

/-- Error produced when `eval` of the option value raises. -/
def evalError : String := "eval of --disable-opmath value raised"

/-- The session-scoped autouse fixture `disable_opmath_if_requested`:
`eval` the option string; on a truthy value warn and disable new opmath,
on a falsy value do nothing; if `eval` raises, the fixture raises. -/
def disable_opmath_if_requested (optValue : String) (st : OpmathState) :
    Except String OpmathState :=
  match pyEval optValue with
  | none => .error evalError
  | some v =>
    if v.truthy then
      .ok { newOpmathActive := false
            warningsIssued := st.warningsIssued ++ [disableOpmathWarning] }
    else
      .ok st

/-! ## `restore_global_seed`

The autouse fixture saves `np.random.get_state()`, yields to the test, and
restores the saved state.  The global state is split into the numpy RNG
state and everything else the test may mutate. -/

/-- Global interpreter state as seen by the fixture: the numpy global RNG
state plus all other mutable state. -/
structure GlobalState (ρ σ : Type) where
  rngState : ρ
  other : σ

/-- The autouse fixture `restore_global_seed`: capture
`np.random.get_state()`, run the test body, then `np.random.set_state` the
captured state. -/
def restore_global_seed {ρ σ : Type}
    (test : GlobalState ρ σ → GlobalState ρ σ) (s : GlobalState ρ σ) :
    GlobalState ρ σ :=
  let original_state := s.rngState
  let after := test s
  { after with rngState := original_state }

/-! ## The `seed` fixture

It reads the seed from the original pytest-rng `seed` fixture and, when the
test node carries a `local_salt` marker with at least one argument, adds the
marker's first argument. -/

/-- The `seed` fixture: `originalSeed` is the value of the original
pytest-rng fixture; `localSalt` is `none` when the node has no `local_salt`
marker, and `some args` with the marker's argument list otherwise. -/
def seed (originalSeed : Int) (localSalt : Option (List Int)) : Int :=
  match localSalt with
  | some (a :: _) => originalSeed + a
  | _ => originalSeed

/-! ## The `qubit_mixed` submodule

`pennylane/devices/qubit_mixed/__init__.py` consists of a module docstring
and a single statement `from .apply_operation import apply_operation`. -/

/-- A Python module-level statement, as far as this file needs. -/
inductive PyStmt where
  | docstring (text : String)
  | importFrom (module : String) (names : List String)
deriving DecidableEq, Repr

/-- The statements of `pennylane/devices/qubit_mixed/__init__.py`. -/
def qubit_mixed_init : List PyStmt :=
  [ .docstring "Submodule for performing qubit mixed-state simulations of quantum circuits.",
    .importFrom ".apply_operation" ["apply_operation"] ]

/-- Names a statement binds in the module namespace. -/
def PyStmt.boundNames : PyStmt → List String
  | .docstring _ => []
  | .importFrom _ names => names

/-- All names a module's statements bind. -/
def moduleNames (stmts : List PyStmt) : List String :=
  (stmts.map PyStmt.boundNames).flatten

/-- A Python name is public when it does not start with an underscore. -/
def isPublicName (n : String) : Bool :=
  match n.data with
  | c :: _ => c != '_'
  | [] => true

/-- The public names of a module: bound names not starting with `_`. -/
def publicModuleNames (stmts : List PyStmt) : List String :=
  (moduleNames stmts).filter isPublicName

/-! ## Interface availability and `pytest_runtest_setup`

At configuration load the three `try`/`except` blocks set `tf_available`,
`torch_available` and `jax_available` from whether the backend imports
succeed.  `pytest_runtest_setup` skips a test whose `tf` / `torch` / `jax`
/ `all_interfaces` markers require an unavailable backend. -/

/-- Which autodiff backends imported successfully. -/
structure InterfaceAvailability where
  tf : Bool
  torch : Bool
  jax : Bool
deriving DecidableEq, Repr

/-- The three `try`/`except` import blocks: `tensorflow` for `tf`; `torch`
and `torch.autograd` for `torch`; `jax` and `jax.numpy` for `jax`.
Autograd is assumed installed and never checked. -/
def detectAvailability (importOk : String → Bool) : InterfaceAvailability :=
  { tf := importOk "tensorflow"
    torch := importOk "torch" && importOk "torch.autograd"
    jax := importOk "jax" && importOk "jax.numpy" }

/-- The `interfaces` set of `pytest_runtest_setup`. -/
def interfaces : List String := ["tf", "torch", "jax"]

/-- The `available_interfaces` dictionary lookup. -/
def availableFor (a : InterfaceAvailability) (m : String) : Bool :=
  if m = "tf" then a.tf
  else if m = "torch" then a.torch
  else if m = "jax" then a.jax
  else false

/-- The `all_interfaces` marker-name set of `pytest_runtest_setup`. -/
def allInterfaceMarkNames : List String := ["tf", "torch", "jax", "all_interfaces"]

/-- `pytest_runtest_setup`, returning `true` exactly when it raises
`pytest.skip`: among the item's markers named `tf`, `torch`, `jax` or
`all_interfaces`, skip when a named backend is unavailable, or, for
`all_interfaces`, when any of the three is unavailable. -/
def pytest_runtest_setup (a : InterfaceAvailability) (markers : List String) : Bool :=
  let marks := markers.filter (fun m => decide (m ∈ allInterfaceMarkNames))
  marks.any (fun b =>
    if b = "all_interfaces" then
      interfaces.any (fun i => !(availableFor a i))
    else !(availableFor a b))

/-! ## Collection: path markers and the `core` marker

`pytest_collection_modifyitems` first adds the `qchem` / `finite-diff` /
`param-shift` / `data` markers to items whose `rel_path.parts` contain the
corresponding name — note `pathlib`'s `parts` includes the final file-name
component, not only directories — then gives `core` to any item with no
suite marker. -/

/-- A collected item's path relative to the pytest root, split into its
directory components and the final file-name component; `pathlib`'s
`parts` is their concatenation. -/
structure CollectedPath where
  dirs : List String
  filename : String
deriving DecidableEq, Repr

/-- `rel_path.parts`: every component, the file name included. -/
def CollectedPath.parts (p : CollectedPath) : List String := p.dirs ++ [p.filename]

/-- A collected test item: its path and its markers. -/
structure Item where
  path : CollectedPath
  markers : List String
deriving DecidableEq, Repr

/-- Markers the first loop of `pytest_collection_modifyitems` adds from the
item's `rel_path.parts`, in source order. -/
def pathMarkersFor (p : CollectedPath) : List String :=
  (if "qchem" ∈ p.parts then ["qchem"] else []) ++
  (if "finite_diff" ∈ p.parts then ["finite-diff"] else []) ++
  (if "parameter_shift" ∈ p.parts then ["param-shift"] else []) ++
  (if "data" ∈ p.parts then ["data"] else [])

/-- The suite-marker list of the second loop of
`pytest_collection_modifyitems`. -/
def suiteMarkers : List String :=
  ["autograd", "data", "torch", "tf", "jax", "qchem", "qcut",
   "all_interfaces", "finite-diff", "param-shift", "external"]

/-- First loop: add the path-derived markers to the item. -/
def addPathMarkers (it : Item) : Item :=
  { it with markers := it.markers ++ pathMarkersFor it.path }

/-- Second loop: an item none of whose markers is a suite marker (or with
no markers at all) is given the `core` marker. -/
def addCoreMarker (it : Item) : Item :=
  if !(it.markers.any (fun m => decide (m ∈ suiteMarkers))) || it.markers.isEmpty then
    { it with markers := it.markers ++ ["core"] }
  else it

/-- `pytest_collection_modifyitems`: both loops, in order. -/
def pytest_collection_modifyitems (items : List Item) : List Item :=
  (items.map addPathMarkers).map addCoreMarker

/-! ## The `tol` / `tf_tol` / `tol_stochastic` fixtures

`tol` returns `float(os.environ.get("TOL", TOL))` and `tf_tol` returns
`float(os.environ.get("TF_TOL", TF_TOL))`: both consult the process
environment.  `tol_stochastic` returns the constant `TOL_STOCHASTIC`.
Python floats are modelled as exact fractions and the builtin `float` on
decimal and scientific literals by `pyFloat?` (`none` models `ValueError`;
surrounding whitespace is not modelled). -/

/-- An exact fraction `num / den`, modelling a Python float value. -/
structure PyFloat where
  num : Int
  den : Nat
deriving DecidableEq, Repr

/-- Numeric equality of fractions, by cross-multiplication. -/
def PyFloat.eqv (a b : PyFloat) : Bool :=
  a.num * (b.den : Int) == b.num * (a.den : Int)

/-- Numeric equality lifted to fixture results. -/
def pyFloatValEq : Option PyFloat → Option PyFloat → Bool
  | none, none => true
  | some a, some b => a.eqv b
  | _, _ => false

/-- Module default `TOL = 1e-3`. -/
def TOL : PyFloat := ⟨1, 1000⟩

/-- Module default `TF_TOL = 2e-2`. -/
def TF_TOL : PyFloat := ⟨2, 100⟩

/-- Module default `TOL_STOCHASTIC = 0.05`. -/
def TOL_STOCHASTIC : PyFloat := ⟨5, 100⟩

/-- Split a character list at every occurrence of `c`. -/
def splitOnChar (c : Char) : List Char → List (List Char)
  | [] => [[]]
  | x :: rest =>
    let r := splitOnChar c rest
    if x = c then [] :: r
    else
      match r with
      | h :: t => (x :: h) :: t
      | [] => [[x]]

/-- Whether the characters form a nonempty decimal-digit string. -/
def allDigits (cs : List Char) : Bool := !cs.isEmpty && cs.all Char.isDigit

/-- Parse a nonempty decimal-digit string. -/
def decimalDigits? (cs : List Char) : Option Nat :=
  if allDigits cs then some (digitsToNat cs) else none

/-- Strip one leading `+` or `-` sign, returning the sign as `±1`. -/
def stripSign : List Char → Int × List Char
  | '-' :: rest => (-1, rest)
  | '+' :: rest => (1, rest)
  | cs => (1, cs)

/-- Parse an unsigned mantissa: digits, optionally with one decimal point
(at least one digit on some side); `i.f` with `L` fractional digits is the
fraction `(i * 10 ^ L + f) / 10 ^ L`. -/
def parseMantissa (cs : List Char) : Option PyFloat :=
  match splitOnChar '.' cs with
  | [ip] => (decimalDigits? ip).map (fun n => ⟨(n : Int), 1⟩)
  | [ip, fp] =>
    if ip.isEmpty && fp.isEmpty then none
    else
      match (if ip.isEmpty then some 0 else decimalDigits? ip),
            (if fp.isEmpty then some 0 else decimalDigits? fp) with
      | some i, some f =>
        some ⟨((i * 10 ^ fp.length + f : Nat) : Int), 10 ^ fp.length⟩
      | _, _ => none
  | _ => none

/-- Model of the Python builtin `float` on decimal and scientific literals:
optional sign, mantissa, optional `e`/`E` exponent with optional sign.
`none` models a `ValueError`. -/
def pyFloat? (s : String) : Option PyFloat :=
  let lowered := s.data.map Char.toLower
  let signed := stripSign lowered
  match splitOnChar 'e' signed.2 with
  | [m] => (parseMantissa m).map (fun q => ⟨signed.1 * q.num, q.den⟩)
  | [m, ex] =>
    let esigned := stripSign ex
    match parseMantissa m, decimalDigits? esigned.2 with
    | some q, some e =>
      if esigned.1 = 1 then some ⟨signed.1 * q.num * (10 : Int) ^ e, q.den⟩
      else some ⟨signed.1 * q.num, q.den * 10 ^ e⟩
    | _, _ => none
  | _ => none

/-- The process environment: variable names to values. -/
def Env : Type := String → Option String

/-- The `tol` fixture: `float(os.environ.get("TOL", TOL))`. -/
def tol (env : Env) : Option PyFloat :=
  match env "TOL" with
  | some s => pyFloat? s
  | none => some TOL

/-- The `tf_tol` fixture: `float(os.environ.get("TF_TOL", TF_TOL))`. -/
def tf_tol (env : Env) : Option PyFloat :=
  match env "TF_TOL" with
  | some s => pyFloat? s
  | none => some TF_TOL

/-- The `tol_stochastic` fixture: the constant `TOL_STOCHASTIC`, the
environment notwithstanding. -/
def tol_stochastic (_env : Env) : Option PyFloat := some TOL_STOCHASTIC

/-! ## Qubitization gradient tests: xfail structure

In `TestDifferentiability`, `test_qnode_tf` carries the decorator
`@pytest.mark.xfail(...)`; `test_qnode_jax` and `test_qnode_torch` call
`pytest.xfail()` before any gradient work whenever `shots is not None`;
`test_legacy_new_opmath_diff` carries `@pytest.mark.xfail(...)`. -/

/-- How far a gradient test body gets before any gradient is computed. -/
inductive TestPhase where
  | xfailedBefore
  | ranGradient
deriving DecidableEq, Repr

/-- Control flow of `test_qnode_jax`: `pytest.xfail()` fires first whenever
`shots is not None`, for either value of `use_jit`. -/
def test_qnode_jax_phase (shots : Option Nat) (_useJit : Bool) : TestPhase :=
  if shots.isSome then .xfailedBefore else .ranGradient

/-- Control flow of `test_qnode_torch`: `pytest.xfail()` fires first
whenever `shots is not None`. -/
def test_qnode_torch_phase (shots : Option Nat) : TestPhase :=
  if shots.isSome then .xfailedBefore else .ranGradient

/-- Marker names decorating `test_qnode_tf`. -/
def test_qnode_tf_markerNames : List String := ["tf", "parametrize", "xfail"]

/-- Marker names decorating `test_legacy_new_opmath_diff`. -/
def test_legacy_new_opmath_diff_markerNames : List String := ["xfail", "usefixtures"]

end Pennylane

namespace Pennylane

/-- C1: the `--disable-opmath` option defaults to `"False"` and is decided
by the truthiness of the evaluated string: a truthy value disables the new
operator arithmetic and issues the `UserWarning`; a falsy value leaves the
state unchanged and issues no warning. -/
theorem claim_C1_disable_opmath (s : String) (st : OpmathState) (v : PyValue)
    (h : pyEval s = some v) :
    getDisableOpmathOption none = "False" ∧
    pyEval disableOpmathDefault = some (PyValue.bool false) ∧
    (v.truthy = true →
      disable_opmath_if_requested s st =
        .ok { newOpmathActive := false
              warningsIssued := st.warningsIssued ++ [disableOpmathWarning] }) ∧
    (v.truthy = false → disable_opmath_if_requested s st = .ok st) := by
  refine ⟨rfl, rfl, ?_, ?_⟩ <;>
    intro hv <;> simp [disable_opmath_if_requested, h, hv]

/-- Witness for C1 at the concrete inputs `"True"` and `"False"`. -/
theorem claim_C1_disable_opmath_witness :
    (disable_opmath_if_requested "True" { newOpmathActive := true, warningsIssued := [] } =
      .ok { newOpmathActive := false, warningsIssued := [disableOpmathWarning] }) ∧
    (disable_opmath_if_requested "False" { newOpmathActive := true, warningsIssued := [] } =
      .ok { newOpmathActive := true, warningsIssued := [] }) := by
  constructor
  · exact (claim_C1_disable_opmath "True"
      { newOpmathActive := true, warningsIssued := [] } (.bool true) rfl).2.2.1 rfl
  · exact (claim_C1_disable_opmath "False"
      { newOpmathActive := true, warningsIssued := [] } (.bool false) rfl).2.2.2 rfl

/-- C10: the option value goes through Python `eval`, so truthiness of an
arbitrary expression decides the outcome: `"1"` (an integer literal, not a
boolean parse) disables the new operator arithmetic, while `"no"` (an
undefined identifier) makes `eval` raise, so the session-scoped fixture
raises at session start. -/
theorem claim_C10_eval_semantics (st : OpmathState) :
    pyEval "1" = some (PyValue.int 1) ∧
    PyValue.truthy (PyValue.int 1) = true ∧
    disable_opmath_if_requested "1" st =
      .ok { newOpmathActive := false
            warningsIssued := st.warningsIssued ++ [disableOpmathWarning] } ∧
    pyEval "no" = none ∧
    disable_opmath_if_requested "no" st = .error evalError := by
  have h1 : pyEval "1" = some (PyValue.int 1) := by decide
  have h2 : pyEval "no" = none := by decide
  refine ⟨h1, rfl, ?_, h2, ?_⟩
  · simp [disable_opmath_if_requested, h1, PyValue.truthy]
  · simp [disable_opmath_if_requested, h2]

/-- C3: for every test body and every starting global state, the numpy RNG
state after `restore_global_seed` finishes equals the state captured before
the test ran, while the test body's effect on the rest of the global state
persists. -/
theorem claim_C3_restore_global_seed {ρ σ : Type}
    (test : GlobalState ρ σ → GlobalState ρ σ) (s : GlobalState ρ σ) :
    (restore_global_seed test s).rngState = s.rngState ∧
    (restore_global_seed test s).other = (test s).other :=
  ⟨rfl, rfl⟩

/-- C4: the `qubit_mixed` package `__init__` binds exactly the single public
name `apply_operation` and consists of nothing beyond the docstring and that
one re-export. -/
theorem claim_C4_qubit_mixed_reexport :
    publicModuleNames qubit_mixed_init = ["apply_operation"] ∧
    moduleNames qubit_mixed_init = ["apply_operation"] ∧
    qubit_mixed_init.length = 2 := by
  refine ⟨by decide, rfl, rfl⟩

/-- C9: the `seed` fixture returns the pytest-rng seed plus the first
argument of the `local_salt` marker when that marker is present with at
least one argument, and the unchanged pytest-rng seed when the marker is
absent or has no arguments. -/
theorem claim_C9_seed_fixture (originalSeed a : Int) (args : List Int) :
    seed originalSeed (some (a :: args)) = originalSeed + a ∧
    seed originalSeed none = originalSeed ∧
    seed originalSeed (some []) = originalSeed :=
  ⟨rfl, rfl, rfl⟩

/-- Helper: the skip decision of `pytest_runtest_setup`, characterised over
an arbitrary availability record. -/
lemma runtest_setup_skips_iff (a : InterfaceAvailability) (markers : List String) :
    pytest_runtest_setup a markers = true ↔
      (("tf" ∈ markers ∧ a.tf = false) ∨
       ("torch" ∈ markers ∧ a.torch = false) ∨
       ("jax" ∈ markers ∧ a.jax = false) ∨
       ("all_interfaces" ∈ markers ∧
         (a.tf = false ∨ a.torch = false ∨ a.jax = false))) := by
  unfold pytest_runtest_setup
  simp only [List.any_eq_true, List.mem_filter, decide_eq_true_eq]
  constructor
  · rintro ⟨m, ⟨hmem, hall⟩, hp⟩
    simp only [allInterfaceMarkNames, List.mem_cons, List.not_mem_nil, or_false] at hall
    rcases hall with rfl | rfl | rfl | rfl
    · refine Or.inl ⟨hmem, ?_⟩
      simpa [availableFor] using hp
    · refine Or.inr (Or.inl ⟨hmem, ?_⟩)
      simpa [availableFor] using hp
    · refine Or.inr (Or.inr (Or.inl ⟨hmem, ?_⟩))
      simpa [availableFor] using hp
    · refine Or.inr (Or.inr (Or.inr ⟨hmem, ?_⟩))
      simpa [interfaces, availableFor] using hp
  · rintro (⟨h, ha⟩ | ⟨h, ha⟩ | ⟨h, ha⟩ | ⟨h, ha⟩)
    · exact ⟨"tf", ⟨h, by simp [allInterfaceMarkNames]⟩, by simp [availableFor, ha]⟩
    · exact ⟨"torch", ⟨h, by simp [allInterfaceMarkNames]⟩, by simp [availableFor, ha]⟩
    · exact ⟨"jax", ⟨h, by simp [allInterfaceMarkNames]⟩, by simp [availableFor, ha]⟩
    · refine ⟨"all_interfaces", ⟨h, by simp [allInterfaceMarkNames]⟩, ?_⟩
      rcases ha with ha | ha | ha <;> simp [interfaces, availableFor, ha]

/-- C2: with availability detected from import success, the setup hook
skips a test exactly when it carries a `tf`, `torch` or `jax` marker whose
backend failed to import, or carries `all_interfaces` while some backend
failed to import; in particular a test with none of these markers is never
skipped by this hook. -/
theorem claim_C2_interface_skip (importOk : String → Bool) (markers : List String) :
    pytest_runtest_setup (detectAvailability importOk) markers = true ↔
      (("tf" ∈ markers ∧ (detectAvailability importOk).tf = false) ∨
       ("torch" ∈ markers ∧ (detectAvailability importOk).torch = false) ∨
       ("jax" ∈ markers ∧ (detectAvailability importOk).jax = false) ∨
       ("all_interfaces" ∈ markers ∧
         ((detectAvailability importOk).tf = false ∨
          (detectAvailability importOk).torch = false ∨
          (detectAvailability importOk).jax = false))) :=
  runtest_setup_skips_iff (detectAvailability importOk) markers

/-- C5 counterexample: the claim that environments differing only in
environment variables leave every fixture's value unchanged is false — two
environments that differ only in `TOL` make the `tol` fixture return
different values (`1/1000` versus `1/2`). -/
theorem claim_C5_counterexample :
    tol (fun _ => none) = some TOL ∧
    tol (fun k => if k = "TOL" then some "0.5" else none) = some ⟨5, 10⟩ ∧
    pyFloatValEq (tol (fun _ => none))
      (tol (fun k => if k = "TOL" then some "0.5" else none)) = false := by
  refine ⟨rfl, by decide, by decide⟩

/-- C5 as amended: the environment variables `TOL` and `TF_TOL` are an
additional external input — `tol` and `tf_tol` read them — but the fixtures
depend on the environment only through those two variables, and
`tol_stochastic` on nothing at all. -/
theorem claim_C5_env_influence (env env' : Env)
    (hTol : env "TOL" = env' "TOL") (hTf : env "TF_TOL" = env' "TF_TOL") :
    tol env = tol env' ∧ tf_tol env = tf_tol env' ∧
    tol_stochastic env = tol_stochastic env' := by
  refine ⟨?_, ?_, rfl⟩
  · unfold tol; rw [hTol]
  · unfold tf_tol; rw [hTf]

/-- C5 witness at two concrete environments agreeing on `TOL` and
`TF_TOL`. -/
theorem claim_C5_env_influence_witness :
    tol (fun _ => none) = tol (fun k => if k = "SHELL" then some "sh" else none) ∧
    tf_tol (fun _ => none) = tf_tol (fun k => if k = "SHELL" then some "sh" else none) ∧
    tol_stochastic (fun _ => none) =
      tol_stochastic (fun k => if k = "SHELL" then some "sh" else none) :=
  claim_C5_env_influence (fun _ => none)
    (fun k => if k = "SHELL" then some "sh" else none) (by decide) (by decide)

/-- C6 counterexample: the claim that only directory components trigger the
path markers is false — an item whose relative path has no directory
components at all, being the single file-name component `data`, still
receives the `data` marker from the hook. -/
theorem claim_C6_counterexample :
    (CollectedPath.mk [] "data").dirs = [] ∧
    pytest_collection_modifyitems [Item.mk (CollectedPath.mk [] "data") []] =
      [Item.mk (CollectedPath.mk [] "data") ["data"]] := by
  refine ⟨rfl, by decide⟩

/-- C6 as amended: the hook assigns `qchem` / `finite-diff` / `param-shift`
/ `data` exactly when the corresponding name `qchem` / `finite_diff` /
`parameter_shift` / `data` occurs among the path's components, the final
file-name component included, and assigns no other marker from the path. -/
theorem claim_C6_path_markers (p : CollectedPath) :
    ("qchem" ∈ pathMarkersFor p ↔ "qchem" ∈ p.parts) ∧
    ("finite-diff" ∈ pathMarkersFor p ↔ "finite_diff" ∈ p.parts) ∧
    ("param-shift" ∈ pathMarkersFor p ↔ "parameter_shift" ∈ p.parts) ∧
    ("data" ∈ pathMarkersFor p ↔ "data" ∈ p.parts) ∧
    (∀ m ∈ pathMarkersFor p,
      m ∈ (["qchem", "finite-diff", "param-shift", "data"] : List String)) := by
  unfold pathMarkersFor
  by_cases h1 : "qchem" ∈ p.parts <;> by_cases h2 : "finite_diff" ∈ p.parts <;>
    by_cases h3 : "parameter_shift" ∈ p.parts <;> by_cases h4 : "data" ∈ p.parts <;>
    simp [h1, h2, h3, h4]

/-- Helper: after `addCoreMarker`, the item carries `core` or some suite
marker. -/
lemma addCoreMarker_classifies (it : Item) :
    ∃ m ∈ (addCoreMarker it).markers, m = "core" ∨ m ∈ suiteMarkers := by
  by_cases hany : it.markers.any (fun m => decide (m ∈ suiteMarkers)) = true
  · rcases List.any_eq_true.mp hany with ⟨m, hm, hdec⟩
    have hms : m ∈ suiteMarkers := of_decide_eq_true hdec
    refine ⟨m, ?_, Or.inr hms⟩
    unfold addCoreMarker
    split
    · exact List.mem_append_left _ hm
    · exact hm
  · have hcond : (!(it.markers.any (fun m => decide (m ∈ suiteMarkers))) ||
        it.markers.isEmpty) = true := by
      rw [Bool.not_eq_true] at hany
      simp [hany]
    refine ⟨"core", ?_, Or.inl rfl⟩
    unfold addCoreMarker
    rw [if_pos hcond]
    exact List.mem_append_right _ (by simp)

/-- C8: every item coming out of `pytest_collection_modifyitems` carries at
least one suite marker — `core` or one of the listed suite markers — and an
item none of whose final markers is a listed suite marker necessarily
carries `core`. -/
theorem claim_C8_core_classification (items : List Item) (it : Item)
    (h : it ∈ pytest_collection_modifyitems items) :
    (∃ m ∈ it.markers, m = "core" ∨ m ∈ suiteMarkers) ∧
    ((∀ m ∈ it.markers, m ∉ suiteMarkers) → "core" ∈ it.markers) := by
  unfold pytest_collection_modifyitems at h
  rcases List.mem_map.mp h with ⟨it1, _, rfl⟩
  refine ⟨addCoreMarker_classifies it1, ?_⟩
  intro hnone
  rcases addCoreMarker_classifies it1 with ⟨m, hm, hcore | hsuite⟩
  · exact hcore ▸ hm
  · exact absurd hsuite (hnone m hm)

/-- C8 witness: a marker-less item collected at `test_foo.py` comes out
carrying exactly the `core` marker. -/
theorem claim_C8_core_classification_witness :
    (∃ m ∈ (Item.mk (CollectedPath.mk [] "test_foo.py") ["core"]).markers,
      m = "core" ∨ m ∈ suiteMarkers) ∧
    ((∀ m ∈ (Item.mk (CollectedPath.mk [] "test_foo.py") ["core"]).markers,
      m ∉ suiteMarkers) →
      "core" ∈ (Item.mk (CollectedPath.mk [] "test_foo.py") ["core"]).markers) :=
  claim_C8_core_classification [Item.mk (CollectedPath.mk [] "test_foo.py") []]
    (Item.mk (CollectedPath.mk [] "test_foo.py") ["core"]) (by decide)

/-- C7: the known-failing gradient paths of the Qubitization suite are all
expected failures — `test_qnode_tf` is marked `xfail`; `test_qnode_jax` and
`test_qnode_torch` invoke `pytest.xfail` before executing whenever `shots`
is not `None`; the legacy-versus-new-opmath gradient comparison is marked
`xfail`. -/
theorem claim_C7_xfail_paths :
    "xfail" ∈ test_qnode_tf_markerNames ∧
    (∀ (n : Nat) (useJit : Bool),
      test_qnode_jax_phase (some n) useJit = TestPhase.xfailedBefore) ∧
    (∀ n : Nat, test_qnode_torch_phase (some n) = TestPhase.xfailedBefore) ∧
    "xfail" ∈ test_legacy_new_opmath_diff_markerNames := by
  exact ⟨by decide, fun n j => rfl, fun n => rfl, by decide⟩

end Pennylane
